import Mathlib

/-!
Shallow embedding of the `serde-altar` binary codec (Terraria world-file
format): the error taxonomy (`src/error.rs`), the `Read`-based deserializer
(`src/de/deserializer.rs`, `src/de/accessor.rs`, `src/de/visitor.rs`) and the
`Write`-based serializer (`src/ser/serializer.rs`, `src/ser/serialize.rs`).

Machine integers are modelled as `Nat` (bit patterns) and `Int` (signed
values); the 64-bit target is assumed, so `usize` is a 64-bit word.  The byte
stream is a list of byte values with a cursor position, matching the
semantics of `std::io::Read` over a slice: a `read` call copies
`min(buffer, remaining)` bytes and never fails.  `f32`/`f64` values are
modelled by their IEEE-754 bit patterns, which `to_le_bytes`/`from_le_bytes`
transport verbatim.  Unbounded `while let` visitor loops are modelled with
explicit fuel: a result of `none` means the loop was still running when the
fuel ran out, i.e. it had not yet completed within that many iterations.
-/

namespace SerdeAltar

/-- Base error of the library, from `src/error.rs`.  The source's `Message`,
`Unsupported`, `IO` and `Overflow` variants; the stream-failure variant `IO`
is rendered `IOFailure` here. -/
inductive Error where
  | Message (msg : String)
  | Unsupported
  | IOFailure
  | Overflow
deriving DecidableEq, Repr

/-- `crate::Result`, from `src/error.rs`. -/
abbrev Result (α : Type) := Except Error α

instance {ε α : Type} [DecidableEq ε] [DecidableEq α] : DecidableEq (Except ε α) := fun a b =>
  match a, b with
  | .error e1, .error e2 =>
    if h : e1 = e2 then .isTrue (by rw [h]) else .isFalse (by simp [h])
  | .ok v1, .ok v2 =>
    if h : v1 = v2 then .isTrue (by rw [h]) else .isFalse (by simp [h])
  | .error _, .ok _ => .isFalse (by simp)
  | .ok _, .error _ => .isFalse (by simp)

/-- Number of values of the 64-bit `usize` type of the assumed target. -/
def usizeBound : Nat := 2 ^ 64

/-- Little-endian byte representation: `w` bytes of the value `v`
(`to_le_bytes` for a `w`-byte machine integer given as a bit pattern). -/
def toLeBytes : Nat → Nat → List Nat
  | 0, _ => []
  | w + 1, v => v % 256 :: toLeBytes w (v / 256)

/-- Value of a little-endian byte list (`from_le_bytes`).  Bytes are assumed
to be `< 256`, as every byte the embedding produces is. -/
def fromLeBytes : List Nat → Nat
  | [] => 0
  | b :: rest => b + 256 * fromLeBytes rest

/-- Signed reading of a `M`-value bit pattern (`M` a power of two):
two's complement interpretation, as done by `iN::from_le_bytes`. -/
def toSigned (M n : Nat) : Int :=
  if n < M / 2 then (n : Int) else (n : Int) - (M : Int)

/-- Two's complement bit pattern of a signed value (`iN::to_le_bytes`). -/
def signedBits (M : Nat) (v : Int) : Nat := (v % (M : Int)).toNat

/-- The `as usize` two's complement cast of an `i16` bit pattern on the
64-bit target (`src/de/deserializer.rs:226,231`). -/
def i16AsUsize (n : Nat) : Nat := (toSigned (2 ^ 16) n % (usizeBound : Int)).toNat

/-- The `as usize` two's complement cast of an `i32` bit pattern on the
64-bit target (`src/de/deserializer.rs:236`). -/
def i32AsUsize (n : Nat) : Nat := (toSigned (2 ^ 32) n % (usizeBound : Int)).toNat

/-- The byte-stream cursor of a decode: the underlying bytes and the read
position.  Models a `std::io::Read` over a slice, the reader used by the
round-trip and trailing-bytes scenarios. -/
structure Reader where
  data : List Nat
  pos : Nat
deriving DecidableEq, Repr

/-- `ReadDeserializer::read_bytes::<N>` (`src/de/deserializer.rs:34`): the
buffer starts zero-initialised, one `read` call fills `min(N, remaining)`
bytes and its count is ignored, so a short read leaves trailing zeros and
never errors. -/
def Reader.readBytes (n : Nat) (r : Reader) : List Nat × Reader :=
  let avail := (r.data.drop r.pos).take n
  (avail ++ List.replicate (n - avail.length) 0,
   { r with pos := r.pos + avail.length })

end SerdeAltar

namespace SerdeAltar

/-! Scalar deserializers, `src/de/deserializer.rs:59-129`. -/

/-- Shared shape of the unsigned scalar hooks `deserialize_u8` through
`deserialize_u64` (and of `deserialize_f32`/`deserialize_f64`, which read the
bit pattern the same way): read `w` bytes, interpret little-endian. -/
def readUnsigned (w : Nat) (r : Reader) : Result (Nat × Reader) :=
  let (buf, r') := r.readBytes w
  .ok (fromLeBytes buf, r')

/-- Shared shape of the signed scalar hooks `deserialize_i8` through
`deserialize_i64`: read `w` bytes, interpret little-endian two's
complement. -/
def readSigned (w : Nat) (r : Reader) : Result (Int × Reader) :=
  let (buf, r') := r.readBytes w
  .ok (toSigned (2 ^ (8 * w)) (fromLeBytes buf), r')

/-- `deserialize_bool` (`src/de/deserializer.rs:59`): one byte, `0` is
`false`, `1` is `true`, anything else is `Error::Overflow`. -/
def deserialize_bool (r : Reader) : Result (Bool × Reader) :=
  let (buf, r') := r.readBytes 1
  match buf.headD 0 with
  | 0 => .ok (false, r')
  | 1 => .ok (true, r')
  | _ => .error .Overflow

/-- `deserialize_u8`. -/
def deserialize_u8 : Reader → Result (Nat × Reader) := readUnsigned 1

/-- `deserialize_u16`. -/
def deserialize_u16 : Reader → Result (Nat × Reader) := readUnsigned 2

/-- `deserialize_u32`. -/
def deserialize_u32 : Reader → Result (Nat × Reader) := readUnsigned 4

/-- `deserialize_u64`. -/
def deserialize_u64 : Reader → Result (Nat × Reader) := readUnsigned 8

/-- `deserialize_i8`. -/
def deserialize_i8 : Reader → Result (Int × Reader) := readSigned 1

/-- `deserialize_i16`. -/
def deserialize_i16 : Reader → Result (Int × Reader) := readSigned 2

/-- `deserialize_i32`. -/
def deserialize_i32 : Reader → Result (Int × Reader) := readSigned 4

/-- `deserialize_i64`. -/
def deserialize_i64 : Reader → Result (Int × Reader) := readSigned 8

/-- `deserialize_f32` (`src/de/deserializer.rs:117`): four little-endian
bytes into the `f32` bit pattern. -/
def deserialize_f32 : Reader → Result (Nat × Reader) := readUnsigned 4

/-- `deserialize_f64` (`src/de/deserializer.rs:124`): eight little-endian
bytes into the `f64` bit pattern. -/
def deserialize_f64 : Reader → Result (Nat × Reader) := readUnsigned 8

end SerdeAltar

namespace SerdeAltar

/-! Scalar serializers, `src/ser/serializer.rs:52-108`.  A serializer hook
takes the value and the bytes written so far (`Vec`-backed writers never
fail). -/

/-- `serialize_u8`. -/
def serialize_u8 (v : Nat) (w : List Nat) : Result (List Nat) :=
  .ok (w ++ toLeBytes 1 v)

/-- `serialize_u16`. -/
def serialize_u16 (v : Nat) (w : List Nat) : Result (List Nat) :=
  .ok (w ++ toLeBytes 2 v)

/-- `serialize_u32`. -/
def serialize_u32 (v : Nat) (w : List Nat) : Result (List Nat) :=
  .ok (w ++ toLeBytes 4 v)

/-- `serialize_u64`. -/
def serialize_u64 (v : Nat) (w : List Nat) : Result (List Nat) :=
  .ok (w ++ toLeBytes 8 v)

/-- `serialize_i8`: little-endian bytes of the two's complement pattern. -/
def serialize_i8 (v : Int) (w : List Nat) : Result (List Nat) :=
  .ok (w ++ toLeBytes 1 (signedBits (2 ^ (8 * 1)) v))

/-- `serialize_i16`. -/
def serialize_i16 (v : Int) (w : List Nat) : Result (List Nat) :=
  .ok (w ++ toLeBytes 2 (signedBits (2 ^ (8 * 2)) v))

/-- `serialize_i32`. -/
def serialize_i32 (v : Int) (w : List Nat) : Result (List Nat) :=
  .ok (w ++ toLeBytes 4 (signedBits (2 ^ (8 * 4)) v))

/-- `serialize_i64`. -/
def serialize_i64 (v : Int) (w : List Nat) : Result (List Nat) :=
  .ok (w ++ toLeBytes 8 (signedBits (2 ^ (8 * 8)) v))

/-- `serialize_f32` (`src/ser/serializer.rs:102`): the four little-endian
bytes of the `f32` bit pattern. -/
def serialize_f32 (v : Nat) (w : List Nat) : Result (List Nat) :=
  .ok (w ++ toLeBytes 4 v)

/-- `serialize_f64` (`src/ser/serializer.rs:107`): the eight little-endian
bytes of the `f64` bit pattern. -/
def serialize_f64 (v : Nat) (w : List Nat) : Result (List Nat) :=
  .ok (w ++ toLeBytes 8 v)

/-- `serialize_bool` (`src/ser/serializer.rs:52`): `false` as `0_u8`,
`true` as `1_u8`, delegated to `serialize_u8`. -/
def serialize_bool (v : Bool) (w : List Nat) : Result (List Nat) :=
  serialize_u8 (match v with | false => 0 | true => 1) w

end SerdeAltar

namespace SerdeAltar

/-! The ULEB128 primitive and the collection machinery. -/

/-- Failure modes of the external `leb128` crate's reader: the stream ended
before a terminating group, or the value does not fit the 64-bit result. -/
inductive LebError where
  | eof
  | doesNotFit
deriving DecidableEq, Repr

/-- Modelled from the spec: the external `leb128` crate's `read::unsigned`
primitive (the repository only calls it; §4.2 describes it as a textbook
base-128 continuation encoding, least-significant group first, with an
overflow failure when the value cannot fit the 64-bit result and a stream
failure at end of input).  Returns the value and the number of bytes
consumed. -/
def lebRead (shift acc : Nat) : List Nat → Except LebError (Nat × Nat)
  | [] => .error .eof
  | b :: rest =>
    if b < 128 then
      let acc' := acc + b * 2 ^ shift
      if acc' < 2 ^ 64 then .ok (acc', 1) else .error .doesNotFit
    else
      match lebRead (shift + 7) (acc + (b - 128) * 2 ^ shift) rest with
      | .ok (v, k) => .ok (v, k + 1)
      | .error e => .error e

/-- Modelled from the spec: the external `leb128` crate's `write::unsigned`
primitive (§4.2: emit the low 7 bits with the continuation bit set on every
group except the last, least-significant group first). -/
def lebWrite (v : Nat) : List Nat :=
  if v < 128 then [v] else (v % 128 + 128) :: lebWrite (v / 128)
decreasing_by exact Nat.div_lt_self (by omega) (by omega)

/-- `ReadDeserializer::read_uleb128` (`src/de/deserializer.rs:26-31`): every
error of the `leb128` reader is mapped to `Error::IO`; the subsequent
`usize::try_from` maps its failure to `Error::Overflow` (on the 64-bit
target it never fails). -/
def read_uleb128 (r : Reader) : Result (Nat × Reader) :=
  match lebRead 0 0 (r.data.drop r.pos) with
  | .error _ => .error .IOFailure
  | .ok (v, k) =>
    if v < usizeBound then .ok (v, { r with pos := r.pos + k })
    else .error .Overflow

/-- The `ValueSized` sequence accessor (`src/de/accessor.rs`): the declared
remaining-element count. -/
structure ValueSized where
  size : Nat
deriving DecidableEq, Repr

/-- `ValueSized::next_element_seed` (`src/de/accessor.rs:9-14`): with `size`
zero it reports no more elements, otherwise it decodes one element.  As in
the source, the stored `size` is returned unchanged in both branches — the
source never decrements it. -/
def ValueSized.next_element_seed {α : Type} (elemDe : Reader → Result (α × Reader))
    (s : ValueSized) (r : Reader) : Result (Option α × ValueSized × Reader) :=
  match s.size with
  | 0 => .ok (none, s, r)
  | _ + 1 =>
    match elemDe r with
    | .error e => .error e
    | .ok (v, r') => .ok (some v, s, r')

/-- The `while let Some(element) = seq.next_element()` loop shared by
`visit_vec_i16`, `visit_vec_i32` and `visit_vec_uleb128`
(`src/de/visitor.rs`), with explicit fuel: `ok none` means the loop had not
completed within `fuel` iterations. -/
def visitLoop {α : Type} (elemDe : Reader → Result (α × Reader)) :
    Nat → ValueSized → Reader → Result (Option (List α × Reader))
  | 0, _, _ => .ok none
  | fuel + 1, s, r =>
    match s.next_element_seed elemDe r with
    | .error e => .error e
    | .ok (none, _, r') => .ok (some ([], r'))
    | .ok (some v, s', r') =>
      match visitLoop elemDe fuel s' r' with
      | .error e => .error e
      | .ok none => .ok none
      | .ok (some (l, r'')) => .ok (some (v :: l, r''))

/-- The size-prefix read of `deserialize_vec_i16`
(`src/de/deserializer.rs:231`): two little-endian bytes as an `i16`, cast
`as usize`. -/
def vecI16Len (r : Reader) : Nat × Reader :=
  let (buf, r') := r.readBytes 2
  (i16AsUsize (fromLeBytes buf), r')

/-- The size-prefix read of `deserialize_vec_i32`
(`src/de/deserializer.rs:236`): four little-endian bytes as an `i32`, cast
`as usize`. -/
def vecI32Len (r : Reader) : Nat × Reader :=
  let (buf, r') := r.readBytes 4
  (i32AsUsize (fromLeBytes buf), r')

/-- `deserialize_vec_i16` composed with the `VecI16Visitor` traversal
(`src/de/deserializer.rs:230-233`, `src/de/visitor.rs:90-97`). -/
def deserialize_vec_i16 {α : Type} (elemDe : Reader → Result (α × Reader))
    (fuel : Nat) (r : Reader) : Result (Option (List α × Reader)) :=
  let (len, r') := vecI16Len r
  visitLoop elemDe fuel ⟨len⟩ r'

/-- `deserialize_vec_i32` composed with the `VecI32Visitor` traversal
(`src/de/deserializer.rs:235-238`, `src/de/visitor.rs:104-111`). -/
def deserialize_vec_i32 {α : Type} (elemDe : Reader → Result (α × Reader))
    (fuel : Nat) (r : Reader) : Result (Option (List α × Reader)) :=
  let (len, r') := vecI32Len r
  visitLoop elemDe fuel ⟨len⟩ r'

/-- `deserialize_vec_uleb128` composed with the `VecULEB128Visitor`
traversal (`src/de/deserializer.rs:240-243`, `src/de/visitor.rs:118-125`). -/
def deserialize_vec_uleb128 {α : Type} (elemDe : Reader → Result (α × Reader))
    (fuel : Nat) (r : Reader) : Result (Option (List α × Reader)) :=
  match read_uleb128 r with
  | .error e => .error e
  | .ok (len, r') => visitLoop elemDe fuel ⟨len⟩ r'

/-- The eight mask tests `(element & 0b...) != 0` of `visit_vec_i16flags`
(`src/de/visitor.rs:64-73`), least-significant bit first. -/
def bitsOfByte (b : Nat) : List Bool :=
  [b.testBit 0, b.testBit 1, b.testBit 2, b.testBit 3,
   b.testBit 4, b.testBit 5, b.testBit 6, b.testBit 7]

/-- `deserialize_vec_i16flags` composed with the `VecI16FlagsVisitor`
traversal (`src/de/deserializer.rs:225-228`, `src/de/visitor.rs:62-79`):
the two-byte `i16` bit-count prefix is cast `as usize`, divided by `8`
(truncating division, as in the source), and the visitor appends eight
booleans per `u8` element it reads. -/
def deserialize_vec_i16flags (fuel : Nat) (r : Reader) :
    Result (Option (List Bool × Reader)) :=
  let (buf, r') := r.readBytes 2
  let len := i16AsUsize (fromLeBytes buf)
  match visitLoop deserialize_u8 fuel ⟨len / 8⟩ r' with
  | .error e => .error e
  | .ok none => .ok none
  | .ok (some (elems, r'')) => .ok (some ((elems.map bitsOfByte).flatten, r''))

end SerdeAltar

namespace SerdeAltar

/-! Collection serialization: the four prefix hooks of
`src/ser/serializer.rs:210-234` and the `Serialize` implementations of
`src/ser/serialize.rs`. -/

/-- `serialize_vec_i16flags` (`src/ser/serializer.rs:211-214`): writes the
`i16` prefix value as two little-endian bytes.  The callers only pass
non-negative values, so the prefix is carried as a `Nat` bit value. -/
def serialize_vec_i16flags (len : Nat) (w : List Nat) : Result (List Nat) :=
  .ok (w ++ toLeBytes 2 len)

/-- `serialize_vec_uleb128` (`src/ser/serializer.rs:216-219`): writes
`len.to_le_bytes()` for the `usize` length — the eight fixed little-endian
bytes of the 64-bit word, not a ULEB128 encoding. -/
def serialize_vec_uleb128 (len : Nat) (w : List Nat) : Result (List Nat) :=
  .ok (w ++ toLeBytes 8 len)

/-- `serialize_vec_i16` (`src/ser/serializer.rs:221-224`): the `i16` prefix
as two little-endian bytes. -/
def serialize_vec_i16 (len : Nat) (w : List Nat) : Result (List Nat) :=
  .ok (w ++ toLeBytes 2 len)

/-- `serialize_vec_i32` (`src/ser/serializer.rs:226-229`): the `i32` prefix
as four little-endian bytes. -/
def serialize_vec_i32 (len : Nat) (w : List Nat) : Result (List Nat) :=
  .ok (w ++ toLeBytes 4 len)

/-- The `for element in &self.0 { seq.serialize_element(&element)?; }` loop
shared by the four `Serialize` implementations of `src/ser/serialize.rs`. -/
def serializeElements {α : Type} (elemSer : α → List Nat → Result (List Nat)) :
    List α → List Nat → Result (List Nat)
  | [], w => .ok w
  | x :: xs, w =>
    match elemSer x w with
    | .error e => .error e
    | .ok w' => serializeElements elemSer xs w'

/-- `impl Serialize for VecI16Flags` (`src/ser/serialize.rs:17-28`):
`i16::try_from` of the length (failing with the custom message for lengths
above `i16::MAX`), byte length `bit_len / 8` plus one if `bit_len % 8 != 0`,
that byte length written by `serialize_vec_i16flags`, then each boolean
serialized as a full byte via `serialize_element`/`serialize_bool`. -/
def VecI16Flags.serialize (flags : List Bool) (w : List Nat) : Result (List Nat) :=
  if flags.length ≤ 32767 then
    let bit_len := flags.length
    let len := bit_len / 8 + (if bit_len % 8 ≠ 0 then 1 else 0)
    match serialize_vec_i16flags len w with
    | .error e => .error e
    | .ok w' => serializeElements serialize_bool flags w'
  else .error (.Message "Vec length does not fit in a i16")

/-- `impl Serialize for VecULEB128<T>` (`src/ser/serialize.rs:36-45`): the
`usize` length handed to `serialize_vec_uleb128`, then the elements. -/
def VecULEB128.serialize {α : Type} (elemSer : α → List Nat → Result (List Nat))
    (l : List α) (w : List Nat) : Result (List Nat) :=
  match serialize_vec_uleb128 l.length w with
  | .error e => .error e
  | .ok w' => serializeElements elemSer l w'

/-- `impl Serialize for VecI16<T>` (`src/ser/serialize.rs:53-62`):
`i16::try_from` of the length, failing with
`Error::Message "Vec length does not fit in a i16"` when the length exceeds
`i16::MAX`, then the prefix and the elements. -/
def VecI16.serialize {α : Type} (elemSer : α → List Nat → Result (List Nat))
    (l : List α) (w : List Nat) : Result (List Nat) :=
  if l.length ≤ 32767 then
    match serialize_vec_i16 l.length w with
    | .error e => .error e
    | .ok w' => serializeElements elemSer l w'
  else .error (.Message "Vec length does not fit in a i16")

/-- `impl Serialize for VecI32<T>` (`src/ser/serialize.rs:70-79`):
`i32::try_from` of the length, failing with
`Error::Message "Vec length does not fit in a i32"` when the length exceeds
`i32::MAX`, then the prefix and the elements. -/
def VecI32.serialize {α : Type} (elemSer : α → List Nat → Result (List Nat))
    (l : List α) (w : List Nat) : Result (List Nat) :=
  if l.length ≤ 2147483647 then
    match serialize_vec_i32 l.length w with
    | .error e => .error e
    | .ok w' => serializeElements elemSer l w'
  else .error (.Message "Vec length does not fit in a i32")

end SerdeAltar

namespace SerdeAltar

/-! The unsupported hooks of `src/ser/serializer.rs` and
`src/de/deserializer.rs`, and `serialize_newtype_variant`. -/

/-- `serialize_char` (`src/ser/serializer.rs:110`). -/
def serialize_char (_v : Char) (_w : List Nat) : Result (List Nat) :=
  .error .Unsupported

/-- `serialize_bytes` (`src/ser/serializer.rs:125`). -/
def serialize_bytes (_v : List Nat) (_w : List Nat) : Result (List Nat) :=
  .error .Unsupported

/-- `serialize_none` (`src/ser/serializer.rs:130`). -/
def serialize_none (_w : List Nat) : Result (List Nat) :=
  .error .Unsupported

/-- `serialize_some` (`src/ser/serializer.rs:135`): the inner value's
serializer is ignored and the hook fails. -/
def serialize_some (_valueSer : List Nat → Result (List Nat))
    (_w : List Nat) : Result (List Nat) :=
  .error .Unsupported

/-- `serialize_unit` (`src/ser/serializer.rs:140`). -/
def serialize_unit (_w : List Nat) : Result (List Nat) :=
  .error .Unsupported

/-- `serialize_unit_struct` (`src/ser/serializer.rs:145`). -/
def serialize_unit_struct (_name : String) (_w : List Nat) : Result (List Nat) :=
  .error .Unsupported

/-- `serialize_unit_variant` (`src/ser/serializer.rs:150`). -/
def serialize_unit_variant (_name : String) (_variantIndex : Nat)
    (_variant : String) (_w : List Nat) : Result (List Nat) :=
  .error .Unsupported

/-- `serialize_newtype_struct` (`src/ser/serializer.rs:153`): delegates to
the inner value's serializer. -/
def serialize_newtype_struct (_name : String)
    (valueSer : List Nat → Result (List Nat)) (w : List Nat) : Result (List Nat) :=
  valueSer w

/-- `serialize_newtype_variant` (`src/ser/serializer.rs:158-161`): as
written in the source, it delegates to the inner value's serializer
(`value.serialize(self)`) instead of failing. -/
def serialize_newtype_variant (_name : String) (_variantIndex : Nat)
    (_variant : String) (valueSer : List Nat → Result (List Nat))
    (w : List Nat) : Result (List Nat) :=
  valueSer w

/-- `serialize_seq` (`src/ser/serializer.rs:163`). -/
def serialize_seq (_len : Option Nat) (_w : List Nat) : Result (List Nat) :=
  .error .Unsupported

/-- `serialize_tuple_variant` (`src/ser/serializer.rs:191`). -/
def serialize_tuple_variant (_name : String) (_variantIndex : Nat)
    (_variant : String) (_len : Nat) (_w : List Nat) : Result (List Nat) :=
  .error .Unsupported

/-- `serialize_map` (`src/ser/serializer.rs:196`). -/
def serialize_map (_len : Option Nat) (_w : List Nat) : Result (List Nat) :=
  .error .Unsupported

/-- `serialize_struct_variant` (`src/ser/serializer.rs:206`). -/
def serialize_struct_variant (_name : String) (_variantIndex : Nat)
    (_variant : String) (_len : Nat) (_w : List Nat) : Result (List Nat) :=
  .error .Unsupported

/-- `deserialize_any` (`src/de/deserializer.rs:54`). -/
def deserialize_any (α : Type) (_r : Reader) : Result (α × Reader) :=
  .error .Unsupported

/-- `deserialize_char` (`src/de/deserializer.rs:131`). -/
def deserialize_char (α : Type) (_r : Reader) : Result (α × Reader) :=
  .error .Unsupported

/-- `deserialize_bytes` (`src/de/deserializer.rs:148`). -/
def deserialize_bytes (α : Type) (_r : Reader) : Result (α × Reader) :=
  .error .Unsupported

/-- `deserialize_byte_buf` (`src/de/deserializer.rs:153`). -/
def deserialize_byte_buf (α : Type) (_r : Reader) : Result (α × Reader) :=
  .error .Unsupported

/-- `deserialize_option` (`src/de/deserializer.rs:158`). -/
def deserialize_option (α : Type) (_r : Reader) : Result (α × Reader) :=
  .error .Unsupported

/-- `deserialize_unit` (`src/de/deserializer.rs:163`). -/
def deserialize_unit (α : Type) (_r : Reader) : Result (α × Reader) :=
  .error .Unsupported

/-- `deserialize_unit_struct` (`src/de/deserializer.rs:168`). -/
def deserialize_unit_struct (α : Type) (_name : String) (_r : Reader) :
    Result (α × Reader) :=
  .error .Unsupported

/-- `deserialize_seq` (`src/de/deserializer.rs:178`). -/
def deserialize_seq (α : Type) (_r : Reader) : Result (α × Reader) :=
  .error .Unsupported

/-- `deserialize_map` (`src/de/deserializer.rs:193`). -/
def deserialize_map (α : Type) (_r : Reader) : Result (α × Reader) :=
  .error .Unsupported

/-- `deserialize_enum` (`src/de/deserializer.rs:203`). -/
def deserialize_enum (α : Type) (_name : String) (_variants : List String)
    (_r : Reader) : Result (α × Reader) :=
  .error .Unsupported

/-- `deserialize_identifier` (`src/de/deserializer.rs:208`). -/
def deserialize_identifier (α : Type) (_r : Reader) : Result (α × Reader) :=
  .error .Unsupported

/-- `deserialize_ignored_any` (`src/de/deserializer.rs:213`). -/
def deserialize_ignored_any (α : Type) (_r : Reader) : Result (α × Reader) :=
  .error .Unsupported

/-- Encode with a fresh writer, then decode the produced bytes with a fresh
reader, keeping the decoded value: the round-trip pipeline of §8 of the
specification. -/
def encThenDec {α β : Type} (ser : α → List Nat → Result (List Nat))
    (de : Reader → Result (β × Reader)) (v : α) : Result β :=
  match ser v [] with
  | .error e => .error e
  | .ok bytes =>
    match de (Reader.mk bytes 0) with
    | .error e => .error e
    | .ok (x, _) => .ok x

end SerdeAltar

namespace SerdeAltar

/-! Supporting lemmas. -/

lemma toLeBytes_length (w v : Nat) : (toLeBytes w v).length = w := by
  induction w generalizing v with
  | zero => rfl
  | succ w ih => simp [toLeBytes, ih]

lemma fromLeBytes_toLeBytes (w v : Nat) (h : v < 2 ^ (8 * w)) :
    fromLeBytes (toLeBytes w v) = v := by
  induction w generalizing v with
  | zero => simp at h; simp [toLeBytes, fromLeBytes, h]
  | succ w ih =>
    have hdiv : v / 256 < 2 ^ (8 * w) := by
      rw [Nat.div_lt_iff_lt_mul (by omega)]
      calc v < 2 ^ (8 * (w + 1)) := h
        _ = 2 ^ (8 * w) * 256 := by rw [Nat.mul_succ, pow_add]; norm_num
    simp only [toLeBytes, fromLeBytes, ih (v / 256) hdiv]
    omega

lemma fromLeBytes_replicate_zero (n : Nat) :
    fromLeBytes (List.replicate n 0) = 0 := by
  induction n with
  | zero => rfl
  | succ n ih => simp [List.replicate, fromLeBytes, ih]

lemma readBytes_exact (n : Nat) (bytes tail : List Nat) (h : bytes.length = n) :
    Reader.readBytes n (Reader.mk (bytes ++ tail) 0) =
      (bytes, Reader.mk (bytes ++ tail) n) := by
  simp [Reader.readBytes, ← h, List.take_left]

lemma readBytes_eof (n : Nat) (data : List Nat) (pos : Nat)
    (h : data.length ≤ pos) :
    Reader.readBytes n (Reader.mk data pos) =
      (List.replicate n 0, Reader.mk data pos) := by
  simp [Reader.readBytes, List.drop_eq_nil_of_le h]

lemma readUnsigned_exact (w v : Nat) (tail : List Nat) (h : v < 2 ^ (8 * w)) :
    readUnsigned w (Reader.mk (toLeBytes w v ++ tail) 0) =
      .ok (v, Reader.mk (toLeBytes w v ++ tail) w) := by
  simp [readUnsigned, readBytes_exact w _ tail (toLeBytes_length w v),
    fromLeBytes_toLeBytes w v h]

lemma signedBits_lt (M : Nat) (hM : 0 < M) (v : Int) : signedBits M v < M := by
  have h1 : v % (M : Int) < M := Int.emod_lt_of_pos v (by exact_mod_cast hM)
  have h2 : 0 ≤ v % (M : Int) := Int.emod_nonneg v (by omega)
  unfold signedBits
  omega

lemma emod_of_neg_bounded (M : Nat) (v : Int) (h1 : -(M : Int) ≤ v) (h2 : v < 0) :
    v % (M : Int) = v + M := by
  have key : (v + M) % (M : Int) = v % M := by
    calc (v + (M : Int)) % M = (v + M * 1) % M := by ring_nf
      _ = v % M := by rw [Int.add_mul_emod_self_left]
  rw [← key]
  exact Int.emod_eq_of_lt (by omega) (by omega)

lemma toSigned_signedBits (k : Nat) (v : Int)
    (h1 : -(2 ^ k : Int) ≤ v) (h2 : v < 2 ^ k) :
    toSigned (2 ^ (k + 1)) (signedBits (2 ^ (k + 1)) v) = v := by
  have hM : ((2 ^ (k + 1) : Nat) : Int) = 2 * 2 ^ k := by
    push_cast [pow_succ]; ring
  have hhalf : (2 ^ (k + 1) : Nat) / 2 = 2 ^ k := by
    rw [pow_succ, Nat.mul_div_cancel _ (by omega)]
  have hknat : ((2 ^ k : Nat) : Int) = (2 : Int) ^ k := by push_cast; rfl
  unfold toSigned signedBits
  rcases le_or_lt 0 v with hv | hv
  · have hmod : v % ((2 ^ (k + 1) : Nat) : Int) = v :=
      Int.emod_eq_of_lt hv (by rw [hM]; omega)
    rw [hmod, hhalf]
    rw [if_pos (by omega)]
    omega
  · have hmod0 := emod_of_neg_bounded (2 ^ (k + 1)) v (by rw [hM]; omega) hv
    rw [hmod0, hhalf]
    rw [if_neg (by omega)]
    omega

lemma readSigned_exact (w : Nat) (hw : 0 < w) (v : Int)
    (h1 : -(2 ^ (8 * w - 1) : Int) ≤ v) (h2 : v < 2 ^ (8 * w - 1)) (tail : List Nat) :
    readSigned w (Reader.mk (toLeBytes w (signedBits (2 ^ (8 * w)) v) ++ tail) 0) =
      .ok (v, Reader.mk (toLeBytes w (signedBits (2 ^ (8 * w)) v) ++ tail) w) := by
  have hlt : signedBits (2 ^ (8 * w)) v < 2 ^ (8 * w) :=
    signedBits_lt _ (Nat.pos_pow_of_pos _ (by omega)) v
  have hsucc : 8 * w = (8 * w - 1) + 1 := by omega
  simp only [readSigned, readBytes_exact w _ tail (toLeBytes_length w _),
    fromLeBytes_toLeBytes w _ hlt]
  rw [hsucc, toSigned_signedBits (8 * w - 1) v h1 h2]

lemma visitLoop_u8_stuck (fuel n : Nat) (r : Reader) :
    visitLoop deserialize_u8 fuel ⟨n + 1⟩ r = .ok none := by
  induction fuel generalizing r with
  | zero => rfl
  | succ fuel ih =>
    have ih' : ∀ r', visitLoop (readUnsigned 1) fuel ⟨n + 1⟩ r' = .ok none := ih
    simp [visitLoop, ValueSized.next_element_seed, deserialize_u8, readUnsigned, ih']

end SerdeAltar


namespace SerdeAltar

lemma readUnsigned_all (w v : Nat) (h : v < 2 ^ (8 * w)) :
    readUnsigned w (Reader.mk (toLeBytes w v) 0) =
      .ok (v, Reader.mk (toLeBytes w v) w) := by
  have := readUnsigned_exact w v [] h
  simpa using this

lemma readSigned_all (w : Nat) (hw : 0 < w) (v : Int)
    (h1 : -(2 ^ (8 * w - 1) : Int) ≤ v) (h2 : v < 2 ^ (8 * w - 1)) :
    readSigned w (Reader.mk (toLeBytes w (signedBits (2 ^ (8 * w)) v)) 0) =
      .ok (v, Reader.mk (toLeBytes w (signedBits (2 ^ (8 * w)) v)) w) := by
  have := readSigned_exact w hw v h1 h2 []
  simpa using this

lemma lebRead_lt (l : List Nat) (shift acc v k : Nat)
    (h : lebRead shift acc l = .ok (v, k)) : v < 2 ^ 64 := by
  induction l generalizing shift acc v k with
  | nil => simp [lebRead] at h
  | cons b rest ih =>
    rw [lebRead] at h
    split at h
    · dsimp only at h
      split at h
      · next hfit =>
        cases h
        exact hfit
      · simp at h
    · split at h
      · next v' k' heq =>
        cases h
        exact ih _ _ _ _ heq
      · simp at h

lemma visitLoop_done {α : Type} (elemDe : Reader → Result (α × Reader))
    (fuel : Nat) (r : Reader) :
    visitLoop elemDe (fuel + 1) ⟨0⟩ r = .ok (some ([], r)) := by
  simp [visitLoop, ValueSized.next_element_seed]

end SerdeAltar

namespace SerdeAltar

/-- C1: the claim says every sized-collection traversal yields exactly the
declared number of elements and then signals completion.  In the source,
`ValueSized::next_element_seed` returns the stored `size` unchanged, so for
every positive declared count the shared traversal loop keeps yielding
elements and never reports completion, however much fuel it receives — shown
on the shared loop for every count `n + 1` and on a full `VecI16` decode
whose prefix `01 00` declares one element. -/
theorem vecI16_traversal_never_completes :
    ∀ (fuel n : Nat) (r : Reader),
      visitLoop deserialize_u8 fuel ⟨n + 1⟩ r = .ok none ∧
      deserialize_vec_i16 deserialize_u8 fuel (Reader.mk [1, 0, 170] 0) = .ok none := by
  intro fuel n r
  refine ⟨visitLoop_u8_stuck fuel n r, ?_⟩
  have h1 : vecI16Len (Reader.mk [1, 0, 170] 0) = (1, Reader.mk [1, 0, 170] 2) := by
    decide
  simp only [deserialize_vec_i16, h1]
  exact visitLoop_u8_stuck fuel 0 _

/-- C2: the claim says encoding a `VecI16Flags` writes the bit count as the
two-byte prefix followed by the booleans packed eight to a byte, so that
`[true, false, true]` encodes as `03 00 05`.  The source instead writes the
byte count `ceil(3/8) = 1` as the prefix and serializes every boolean as a
full byte, producing `01 00 01 00 01`. -/
theorem vecI16Flags_encode_full_bytes :
    VecI16Flags.serialize [true, false, true] [] = .ok [1, 0, 1, 0, 1] ∧
    VecI16Flags.serialize [true, false, true] [] ≠ .ok [3, 0, 5] := by
  constructor <;> decide

/-- C3: the claim says decoding a `VecI16Flags` with bit count `b` reads
`ceil(b/8)` bytes and produces exactly `b` booleans.  The source computes the
loop bound as the truncating division `b / 8`: with bit count `3` and a data
byte `05` present it reads no data bytes at all and produces the empty
sequence, and with bit count `8` the non-decrementing traversal never
completes at any fuel. -/
theorem vecI16Flags_decode_truncates :
    ∀ fuel : Nat,
      deserialize_vec_i16flags (fuel + 1) (Reader.mk [3, 0, 5] 0) =
        .ok (some ([], Reader.mk [3, 0, 5] 2)) ∧
      deserialize_vec_i16flags fuel (Reader.mk [8, 0, 255] 0) = .ok none := by
  intro fuel
  constructor
  · have hbr : (Reader.mk [3, 0, 5] 0).readBytes 2 = ([3, 0], Reader.mk [3, 0, 5] 2) := by
      decide
    have hlen : i16AsUsize (fromLeBytes [3, 0]) / 8 = 0 := by decide
    simp only [deserialize_vec_i16flags, hbr, hlen,
      visitLoop_done deserialize_u8 fuel (Reader.mk [3, 0, 5] 2)]
    simp
  · have hbr : (Reader.mk [8, 0, 255] 0).readBytes 2 = ([8, 0], Reader.mk [8, 0, 255] 2) := by
      decide
    have hlen : i16AsUsize (fromLeBytes [8, 0]) / 8 = 1 := by decide
    have hloop := visitLoop_u8_stuck fuel 0 (Reader.mk [8, 0, 255] 2)
    simp only [deserialize_vec_i16flags, hbr, hlen]
    rw [show (1 : Nat) = 0 + 1 from rfl, hloop]

/-- C4: the claim says an encoded `VecULEB128` carries its element count as
a ULEB128 variable-length prefix, the exact inverse of the decoder's read.
The source's `serialize_vec_uleb128` instead writes `len.to_le_bytes()`: the
eight fixed little-endian bytes of the 64-bit `usize`, so a one-element
collection is prefixed by `01 00 00 00 00 00 00 00` where the ULEB128
encoding of `1` is the single byte `01`. -/
theorem vecULEB128_prefix_fixed_width :
    VecULEB128.serialize serialize_u8 [7] [] = .ok [1, 0, 0, 0, 0, 0, 0, 0, 7] ∧
    lebWrite 1 = [1] := by
  constructor
  · decide
  · simp [lebWrite]

end SerdeAltar

namespace SerdeAltar

/-- C5: for every supported scalar type and every value of that type,
decoding the bytes produced by encoding the value yields the value back,
the wire form being the fixed-width little-endian representation.  `f32` and
`f64` values are identified with their IEEE-754 bit patterns, which the
codec transports verbatim. -/
theorem scalar_roundtrip :
    (∀ v : Bool, encThenDec serialize_bool deserialize_bool v = .ok v) ∧
    (∀ v : Nat, v < 256 → encThenDec serialize_u8 deserialize_u8 v = .ok v) ∧
    (∀ v : Nat, v < 65536 → encThenDec serialize_u16 deserialize_u16 v = .ok v) ∧
    (∀ v : Nat, v < 4294967296 → encThenDec serialize_u32 deserialize_u32 v = .ok v) ∧
    (∀ v : Nat, v < 18446744073709551616 →
      encThenDec serialize_u64 deserialize_u64 v = .ok v) ∧
    (∀ v : Int, -128 ≤ v → v < 128 →
      encThenDec serialize_i8 deserialize_i8 v = .ok v) ∧
    (∀ v : Int, -32768 ≤ v → v < 32768 →
      encThenDec serialize_i16 deserialize_i16 v = .ok v) ∧
    (∀ v : Int, -2147483648 ≤ v → v < 2147483648 →
      encThenDec serialize_i32 deserialize_i32 v = .ok v) ∧
    (∀ v : Int, -9223372036854775808 ≤ v → v < 9223372036854775808 →
      encThenDec serialize_i64 deserialize_i64 v = .ok v) ∧
    (∀ v : Nat, v < 4294967296 → encThenDec serialize_f32 deserialize_f32 v = .ok v) ∧
    (∀ v : Nat, v < 18446744073709551616 →
      encThenDec serialize_f64 deserialize_f64 v = .ok v) := by
  have hu : ∀ w v : Nat, v < 2 ^ (8 * w) →
      encThenDec (fun x wr => .ok (wr ++ toLeBytes w x)) (readUnsigned w) v = .ok v := by
    intro w v h
    simp [encThenDec, readUnsigned_all w v h]
  have hs : ∀ w : Nat, 0 < w → ∀ v : Int,
      -(2 ^ (8 * w - 1) : Int) ≤ v → v < 2 ^ (8 * w - 1) →
      encThenDec (fun x wr => .ok (wr ++ toLeBytes w (signedBits (2 ^ (8 * w)) x)))
        (readSigned w) v = .ok v := by
    intro w hw v h1 h2
    simp [encThenDec, readSigned_all w hw v h1 h2]
  refine ⟨?_, ?_, ?_, ?_, ?_, ?_, ?_, ?_, ?_, ?_, ?_⟩
  · intro v; cases v <;> decide
  · intro v h; exact hu 1 v (by norm_num; omega)
  · intro v h; exact hu 2 v (by norm_num; omega)
  · intro v h; exact hu 4 v (by norm_num; omega)
  · intro v h; exact hu 8 v (by norm_num; omega)
  · intro v h1 h2; exact hs 1 (by omega) v (by norm_num; omega) (by norm_num; omega)
  · intro v h1 h2; exact hs 2 (by omega) v (by norm_num; omega) (by norm_num; omega)
  · intro v h1 h2; exact hs 4 (by omega) v (by norm_num; omega) (by norm_num; omega)
  · intro v h1 h2; exact hs 8 (by omega) v (by norm_num; omega) (by norm_num; omega)
  · intro v h; exact hu 4 v (by norm_num; omega)
  · intro v h; exact hu 8 v (by norm_num; omega)

/-- Witness for C5: the round trip evaluated at one concrete value per
scalar type. -/
theorem scalar_roundtrip_witness :
    encThenDec serialize_bool deserialize_bool true = .ok true ∧
    encThenDec serialize_u8 deserialize_u8 200 = .ok 200 ∧
    encThenDec serialize_u16 deserialize_u16 40000 = .ok 40000 ∧
    encThenDec serialize_u32 deserialize_u32 3000000000 = .ok 3000000000 ∧
    encThenDec serialize_u64 deserialize_u64 10000000000000000000 =
      .ok 10000000000000000000 ∧
    encThenDec serialize_i8 deserialize_i8 (-100) = .ok (-100) ∧
    encThenDec serialize_i16 deserialize_i16 (-30000) = .ok (-30000) ∧
    encThenDec serialize_i32 deserialize_i32 (-2000000000) = .ok (-2000000000) ∧
    encThenDec serialize_i64 deserialize_i64 (-9000000000000000000) =
      .ok (-9000000000000000000) ∧
    encThenDec serialize_f32 deserialize_f32 1065353216 = .ok 1065353216 ∧
    encThenDec serialize_f64 deserialize_f64 4607182418800017408 =
      .ok 4607182418800017408 :=
  ⟨scalar_roundtrip.1 true,
   scalar_roundtrip.2.1 200 (by norm_num),
   scalar_roundtrip.2.2.1 40000 (by norm_num),
   scalar_roundtrip.2.2.2.1 3000000000 (by norm_num),
   scalar_roundtrip.2.2.2.2.1 10000000000000000000 (by norm_num),
   scalar_roundtrip.2.2.2.2.2.1 (-100) (by norm_num) (by norm_num),
   scalar_roundtrip.2.2.2.2.2.2.1 (-30000) (by norm_num) (by norm_num),
   scalar_roundtrip.2.2.2.2.2.2.2.1 (-2000000000) (by norm_num) (by norm_num),
   scalar_roundtrip.2.2.2.2.2.2.2.2.1 (-9000000000000000000) (by norm_num) (by norm_num),
   scalar_roundtrip.2.2.2.2.2.2.2.2.2.1 1065353216 (by norm_num),
   scalar_roundtrip.2.2.2.2.2.2.2.2.2.2 4607182418800017408 (by norm_num)⟩

end SerdeAltar

namespace SerdeAltar

/-- Counterexample for C6: encoding a `VecI16` of `32768` elements fails as
claimed, but the error is the custom `Message` variant produced by the
`i16::try_from` failure path, not the `Overflow` variant the claim names. -/
theorem vecI16_count_overflow_message :
    VecI16.serialize serialize_u8 (List.replicate 32768 0) [] =
      .error (.Message "Vec length does not fit in a i16") ∧
    Error.Message "Vec length does not fit in a i16" ≠ Error.Overflow := by
  constructor
  · rw [VecI16.serialize, if_neg (by rw [List.length_replicate]; omega)]
  · decide

/-- C6 amended: encoding a `VecI16` whose element count exceeds `i16::MAX`
(and a `VecI32` whose count exceeds `i32::MAX`) fails without truncating,
but with the `Message` error variant carrying the source's custom text, not
with `Overflow`. -/
theorem vec_count_overflow_rejected :
    ∀ {α : Type} (elemSer : α → List Nat → Result (List Nat)) (l : List α)
      (w : List Nat),
      (32767 < l.length →
        VecI16.serialize elemSer l w =
          .error (.Message "Vec length does not fit in a i16")) ∧
      (2147483647 < l.length →
        VecI32.serialize elemSer l w =
          .error (.Message "Vec length does not fit in a i32")) := by
  intro α elemSer l w
  constructor
  · intro h; rw [VecI16.serialize, if_neg (by omega)]
  · intro h; rw [VecI32.serialize, if_neg (by omega)]

/-- Witness for the amended C6: the two failure paths at concrete
over-length collections. -/
theorem vec_count_overflow_rejected_witness :
    VecI16.serialize serialize_u8 (List.replicate 32768 0) [] =
      .error (.Message "Vec length does not fit in a i16") ∧
    VecI32.serialize serialize_u8 (List.replicate 2147483648 0) [] =
      .error (.Message "Vec length does not fit in a i32") :=
  ⟨(vec_count_overflow_rejected serialize_u8 (List.replicate 32768 0) []).1
     (by rw [List.length_replicate]; omega),
   (vec_count_overflow_rejected serialize_u8 (List.replicate 2147483648 0) []).2
     (by rw [List.length_replicate]; omega)⟩

/-- Counterexample for C7: a ULEB128 whose reconstructed value needs more
than 64 bits (nine continuation bytes followed by `02`, value `2^64`) makes
`read_uleb128` fail with the stream-error variant `IO`, not with `Overflow`
as the claim states, because the source maps every error of the `leb128`
reader to `Error::IO`. -/
theorem uleb128_value_overflow_not_overflow_variant :
    read_uleb128 (Reader.mk [128, 128, 128, 128, 128, 128, 128, 128, 128, 2] 0) =
      .error .IOFailure ∧
    Error.IOFailure ≠ Error.Overflow := by
  constructor <;> decide

/-- C7 amended: a stream that ends before a terminating group fails with the
`IO` variant, as claimed — but so does a reconstructed value that cannot fit
the 64-bit target width, because `read_uleb128` maps every error of the
ULEB128 reader to `IO`; the `Overflow` variant could only arise from the
`usize::try_from` conversion, which never fails on the 64-bit target, so
every successful ULEB128 read is returned as-is. -/
theorem read_uleb128_error_mapping :
    (∀ (r : Reader) (e : LebError),
      lebRead 0 0 (r.data.drop r.pos) = .error e →
      read_uleb128 r = .error .IOFailure) ∧
    (∀ (r : Reader) (v k : Nat),
      lebRead 0 0 (r.data.drop r.pos) = .ok (v, k) →
      read_uleb128 r = .ok (v, Reader.mk r.data (r.pos + k))) := by
  constructor
  · intro r e h
    rw [read_uleb128, h]
  · intro r v k h
    have hv : v < usizeBound := lebRead_lt _ 0 0 v k h
    simp only [read_uleb128, h]
    rw [if_pos hv]

/-- Witness for the amended C7: the end-of-stream failure on an empty
reader and a successful single-byte read. -/
theorem read_uleb128_error_mapping_witness :
    read_uleb128 (Reader.mk [] 0) = .error .IOFailure ∧
    read_uleb128 (Reader.mk [5] 0) = .ok (5, Reader.mk [5] 1) :=
  ⟨read_uleb128_error_mapping.1 (Reader.mk [] 0) .eof (by decide),
   read_uleb128_error_mapping.2 (Reader.mk [5] 0) 5 1 (by decide)⟩

end SerdeAltar

namespace SerdeAltar

/-- Counterexample for C8: the claim says every enum/tagged-variant shape
fails with `Unsupported` on encode; the source's `serialize_newtype_variant`
instead delegates to the inner value's serializer, so encoding a newtype
variant holding the byte `42` succeeds and writes that byte. -/
theorem newtype_variant_encode_succeeds :
    serialize_newtype_variant "E" 0 "V" (serialize_u8 42) [] = .ok [42] ∧
    serialize_newtype_variant "E" 0 "V" (serialize_u8 42) [] ≠ .error .Unsupported := by
  constructor <;> decide

/-- C8 amended: every unsupported wire-format shape — option, map,
unit/tuple/struct variants, identifier, byte-buffer, unit, sequence, char
and the unknown-shape hooks — fails uniformly with `Unsupported` on both
encode and decode, with the single exception of `serialize_newtype_variant`,
which transparently serializes its inner value instead of failing. -/
theorem unsupported_hooks_fail :
    (∀ v w, serialize_char v w = .error .Unsupported) ∧
    (∀ v w, serialize_bytes v w = .error .Unsupported) ∧
    (∀ w, serialize_none w = .error .Unsupported) ∧
    (∀ vs w, serialize_some vs w = .error .Unsupported) ∧
    (∀ w, serialize_unit w = .error .Unsupported) ∧
    (∀ n w, serialize_unit_struct n w = .error .Unsupported) ∧
    (∀ n i vn w, serialize_unit_variant n i vn w = .error .Unsupported) ∧
    (∀ l w, serialize_seq l w = .error .Unsupported) ∧
    (∀ n i vn len w, serialize_tuple_variant n i vn len w = .error .Unsupported) ∧
    (∀ l w, serialize_map l w = .error .Unsupported) ∧
    (∀ n i vn len w, serialize_struct_variant n i vn len w = .error .Unsupported) ∧
    (∀ α r, deserialize_any α r = .error .Unsupported) ∧
    (∀ α r, deserialize_char α r = .error .Unsupported) ∧
    (∀ α r, deserialize_bytes α r = .error .Unsupported) ∧
    (∀ α r, deserialize_byte_buf α r = .error .Unsupported) ∧
    (∀ α r, deserialize_option α r = .error .Unsupported) ∧
    (∀ α r, deserialize_unit α r = .error .Unsupported) ∧
    (∀ α n r, deserialize_unit_struct α n r = .error .Unsupported) ∧
    (∀ α r, deserialize_seq α r = .error .Unsupported) ∧
    (∀ α r, deserialize_map α r = .error .Unsupported) ∧
    (∀ α n vs r, deserialize_enum α n vs r = .error .Unsupported) ∧
    (∀ α r, deserialize_identifier α r = .error .Unsupported) ∧
    (∀ α r, deserialize_ignored_any α r = .error .Unsupported) ∧
    (∀ n i vn vs w, serialize_newtype_variant n i vn vs w = vs w) := by
  refine ⟨?_, ?_, ?_, ?_, ?_, ?_, ?_, ?_, ?_, ?_, ?_, ?_, ?_, ?_, ?_, ?_, ?_,
    ?_, ?_, ?_, ?_, ?_, ?_, ?_⟩ <;> intros <;> rfl

/-- C9: for every fixed-width scalar decode, a reader with fewer remaining
bytes than the scalar's width does not produce an `IO` error: the source
ignores the count returned by `read`, so the unread portion of the
zero-initialised buffer stays zero.  At end of stream every numeric scalar
decodes to `0`, a `bool` decodes to `false`, and a partially available
buffer is zero-extended (here `u32` over the single byte `05`). -/
theorem eof_scalar_decode_defaults :
    (∀ (data : List Nat) (pos : Nat), data.length ≤ pos →
      deserialize_bool (Reader.mk data pos) = .ok (false, Reader.mk data pos) ∧
      deserialize_u8 (Reader.mk data pos) = .ok (0, Reader.mk data pos) ∧
      deserialize_u16 (Reader.mk data pos) = .ok (0, Reader.mk data pos) ∧
      deserialize_u32 (Reader.mk data pos) = .ok (0, Reader.mk data pos) ∧
      deserialize_u64 (Reader.mk data pos) = .ok (0, Reader.mk data pos) ∧
      deserialize_i8 (Reader.mk data pos) = .ok (0, Reader.mk data pos) ∧
      deserialize_i16 (Reader.mk data pos) = .ok (0, Reader.mk data pos) ∧
      deserialize_i32 (Reader.mk data pos) = .ok (0, Reader.mk data pos) ∧
      deserialize_i64 (Reader.mk data pos) = .ok (0, Reader.mk data pos) ∧
      deserialize_f32 (Reader.mk data pos) = .ok (0, Reader.mk data pos) ∧
      deserialize_f64 (Reader.mk data pos) = .ok (0, Reader.mk data pos)) ∧
    deserialize_u32 (Reader.mk [5] 0) = .ok (5, Reader.mk [5] 1) := by
  constructor
  · intro data pos h
    have hu : ∀ w : Nat, readUnsigned w (Reader.mk data pos) =
        .ok (0, Reader.mk data pos) := by
      intro w
      simp [readUnsigned, readBytes_eof w data pos h, fromLeBytes_replicate_zero]
    have hs : ∀ w : Nat, 0 < w → readSigned w (Reader.mk data pos) =
        .ok (0, Reader.mk data pos) := by
      intro w hw
      have hhalf : 0 < 2 ^ (8 * w) / 2 := by
        have : (2 : Nat) ^ 1 ≤ 2 ^ (8 * w) := Nat.pow_le_pow_right (by omega) (by omega)
        omega
      simp [readSigned, readBytes_eof w data pos h, fromLeBytes_replicate_zero,
        toSigned, hhalf]
    refine ⟨?_, hu 1, hu 2, hu 4, hu 8, hs 1 (by omega), hs 2 (by omega),
      hs 4 (by omega), hs 8 (by omega), hu 4, hu 8⟩
    simp [deserialize_bool, readBytes_eof 1 data pos h]
  · decide

/-- Witness for C9: the end-of-stream behaviour at the empty reader. -/
theorem eof_scalar_decode_defaults_witness :
    deserialize_bool (Reader.mk [] 0) = .ok (false, Reader.mk [] 0) ∧
    deserialize_i32 (Reader.mk [] 0) = .ok (0, Reader.mk [] 0) :=
  ⟨(eof_scalar_decode_defaults.1 [] 0 (by simp)).1,
   (eof_scalar_decode_defaults.1 [] 0 (by simp)).2.2.2.2.2.2.2.1⟩

/-- C10: decoding a `VecI16` or `VecI32` whose signed size prefix is
negative does not reject the prefix: the `as usize` cast reinterprets the
two's complement pattern, so the `i16` prefix `FF FF` (value `-1`) becomes
the element count `2^64 - 1`, likewise the `i32` prefix `FF FF FF FF`; in
general every `i16` pattern with the sign bit set becomes
`2^64 - 2^16 + pattern`. -/
theorem negative_count_cast :
    vecI16Len (Reader.mk [255, 255] 0) =
      (18446744073709551615, Reader.mk [255, 255] 2) ∧
    vecI32Len (Reader.mk [255, 255, 255, 255] 0) =
      (18446744073709551615, Reader.mk [255, 255, 255, 255] 4) ∧
    (∀ n : Nat, 32768 ≤ n → n < 65536 →
      i16AsUsize n = 18446744073709551616 - 65536 + n) := by
  refine ⟨by decide, by decide, ?_⟩
  intro n h1 h2
  unfold i16AsUsize toSigned usizeBound
  rw [if_neg (by norm_num; omega)]
  have hmod := emod_of_neg_bounded (2 ^ 64) ((n : Int) - (2 ^ 16 : Nat))
    (by push_cast; omega) (by push_cast; omega)
  rw [hmod]
  push_cast
  omega

/-- Witness for C10: the general sign-extension law applied at the pattern
`40000` (the `i16` value `-25536`). -/
theorem negative_count_cast_witness :
    i16AsUsize 40000 = 18446744073709551616 - 65536 + 40000 :=
  negative_count_cast.2.2 40000 (by omega) (by omega)

end SerdeAltar
